import Mathlib

/-!
Verification of the MyStation diagnostic tool (single Python source file).

This file shallowly embeds the pure core of the program:
  * `format_size` — byte-count to human-readable magnitude string;
  * `save_history` / `record_text` — the history-log record writer;
  * `parse_line` / `parse_lines` / `parse_history` — the history-log parser
    used by `plot_usage`;
  * `plot_usage`, `monitor_memory`, `monitor_cpu`, `list_processes` — the
    dependency-guarded actions, with external availability passed as a flag;
  * `main_dispatch`, `windows_optimization_dispatch`,
    `run_all_optimizations` — the menu state machine and the composite
    optimization runner, with the effectful sub-actions abstracted as a
    behavior function.

Machine floats of the source are modelled as exact rationals (`ℚ`); the
values exercised here are far from any rounding tie, so the two-decimal
renderings agree with the source's float formatting.  Rational values are
built with `mkRat` and plain integer arithmetic so that every definition
evaluates inside the kernel.  Python string primitives (`split` on a
one-character separator, `strip`, `replace`, substring membership,
`float` parsing on plain decimal literals) are modelled over `List Char`
by the structurally recursive functions below.
-/

/-- Python `str.split(sep)` semantics for a one-character separator:
splitting never yields the empty list, and separators at the ends
produce empty fields. -/
def splitOnChar (sep : Char) : List Char → List (List Char)
  | [] => [[]]
  | c :: rest =>
    let r := splitOnChar sep rest
    if c = sep then [] :: r
    else
      match r with
      | h :: t => (c :: h) :: t
      | [] => [[c]]

/-- Python `str.strip()`: drop leading and trailing whitespace. -/
def pyStrip (l : List Char) : List Char :=
  ((l.dropWhile Char.isWhitespace).reverse.dropWhile Char.isWhitespace).reverse

/-- Python `'Total' in line`-style substring membership over char lists. -/
def containsSub (pat : List Char) : List Char → Bool
  | [] => pat.isEmpty
  | c :: rest => pat.isPrefixOf (c :: rest) || containsSub pat rest

/-- Python `s.replace(' GB', '')`: remove every (left-to-right,
non-overlapping) occurrence of the three characters `" GB"`. -/
def removeGB : List Char → List Char
  | ' ' :: 'G' :: 'B' :: rest => removeGB rest
  | c :: rest => c :: removeGB rest
  | [] => []

/-- Value of a digit string, most significant first. -/
def digitsToNat (l : List Char) : ℕ :=
  l.foldl (fun a c => a * 10 + (c.toNat - 48)) 0

/-- Plain decimal part of Python `float(...)` (sign already stripped):
`digits`, `digits.digits`, `digits.` or `.digits`, nothing else.  The
exponent and `inf`/`nan` forms of Python's grammar never occur in the
history file and are not modelled.  The value is returned exactly. -/
def parseDecimal? (l : List Char) : Option ℚ :=
  let intPart := l.takeWhile Char.isDigit
  let rest := l.dropWhile Char.isDigit
  match rest with
  | [] => if intPart.isEmpty then none else some (mkRat (digitsToNat intPart) 1)
  | '.' :: rest2 =>
    let fracPart := rest2.takeWhile Char.isDigit
    let rest3 := rest2.dropWhile Char.isDigit
    if rest3.isEmpty && !(intPart.isEmpty && fracPart.isEmpty) then
      some (mkRat (digitsToNat intPart * 10 ^ fracPart.length + digitsToNat fracPart)
        (10 ^ fracPart.length))
    else none
  | _ => none

/-- Negation on `ℚ`, spelled through `mkRat` so that it evaluates in the
kernel. -/
def qneg (q : ℚ) : ℚ := mkRat (-q.num) q.den

/-- Python `float(s)` on the decimal-literal fragment of its grammar:
surrounding whitespace, an optional sign, then a plain decimal number.
Returns the exact rational value. -/
def pyFloat? (s : List Char) : Option ℚ :=
  match pyStrip s with
  | '-' :: rest => (parseDecimal? rest).map qneg
  | '+' :: rest => parseDecimal? rest
  | l => parseDecimal? l

/-- The integer nearest to `100 * q`, ties to even — the hundredths
count computed by Python's `f"{q:.2f}"` formatting (which rounds the
value to the nearest hundredth, ties to even).  Computed on the
numerator and denominator with integer floor division so that it
evaluates in the kernel. -/
def cents (q : ℚ) : ℤ :=
  let d : ℤ := (q.den : ℤ)
  let n : ℤ := 100 * q.num
  let f : ℤ := Int.fdiv n d
  let r : ℤ := n - f * d
  if 2 * r < d then f
  else if d < 2 * r then f + 1
  else if f % 2 = 0 then f else f + 1

/-- The two decimal digits of a hundredths count `n`. -/
def twoDigits (n : ℕ) : String :=
  String.mk [Nat.digitChar (n / 10 % 10), Nat.digitChar (n % 10)]

/-- Python `f"{q:.2f}"`: the value rendered with exactly two digits
after the decimal point. -/
def fmt2 (q : ℚ) : String :=
  let c : ℤ := cents q
  let n : ℕ := c.natAbs
  (if c < 0 then "-" else "") ++ toString (n / 100) ++ "." ++ twoDigits n

/-- Function `format_size` of the source, split into the selected magnitude and
unit: the branch cascade `>= 1024**3` (GB), `>= 1024**2` (MB),
`>= 1024` (KB), else Bytes, with Python's true division modelled as
exact division (`mkRat`). -/
def format_size_parts (b : ℤ) : ℚ × String :=
  if 1024 ^ 3 ≤ b then (mkRat b (1024 ^ 3), "GB")
  else if 1024 ^ 2 ≤ b then (mkRat b (1024 ^ 2), "MB")
  else if 1024 ≤ b then (mkRat b 1024, "KB")
  else (mkRat b 1, "Bytes")

/-- Function `format_size` of the source: `f"{size:.2f} {unit}"`. -/
def format_size (b : ℤ) : String :=
  fmt2 (format_size_parts b).1 ++ " " ++ (format_size_parts b).2

example : format_size 0 = "0.00 Bytes" := by decide
example : format_size 1024 = "1.00 KB" := by decide
example : format_size 1536 = "1.50 KB" := by decide
example : format_size (1024 ^ 3) = "1.00 GB" := by decide
example : format_size (-5) = "-5.00 Bytes" := by decide
example : format_size 500000000000 = "465.66 GB" := by decide
example : format_size 300000000000 = "279.40 GB" := by decide
example : format_size 200000000000 = "186.26 GB" := by decide
example : format_size (1024 ^ 4) = "1024.00 GB" := by decide

/-- The ANSI magenta escape `Colors.MAGENTA` that `save_history`
interpolates in front of the separator dashes. -/
def MAGENTA : String := "\x1b[95m"

/-- The `'-' * 40` separator of `save_history`. -/
def dashes40 : String := String.mk (List.replicate 40 '-')

/-- A usage snapshot as held in the `usage_data` dict:
volume label and total/used/free byte counts. -/
abbrev Snap := String × ℤ × ℤ × ℤ

/-- One data line of `save_history`:
`f"{drive} | Total: {format_size(total)} | Used: {format_size(used)} | Free: {format_size(free)}"`. -/
def snapshot_line (s : Snap) : String :=
  s.1 ++ " | Total: " ++ format_size s.2.1 ++ " | Used: " ++ format_size s.2.2.1
    ++ " | Free: " ++ format_size s.2.2.2

/-- The per-snapshot loop of `save_history`: one line per entry, each
terminated by a newline. -/
def snapshot_block : List Snap → String
  | [] => ""
  | s :: rest => snapshot_line s ++ "\n" ++ snapshot_block rest

/-- The text that one `save_history` call appends: the write
`f"\n{Colors.MAGENTA}{'-' * 40}\n"`, then `f"Timestamp: {timestamp}\n"`,
then one line per snapshot.  The timestamp (`datetime.now()` formatted
`%Y-%m-%d %H:%M:%S`) is passed in as a string. -/
def record_text (ts : String) (data : List Snap) : String :=
  ("\n" ++ MAGENTA ++ dashes40 ++ "\n") ++ ("Timestamp: " ++ ts ++ "\n")
    ++ snapshot_block data

/-- Function `save_history`: the destination is opened for append (created when
absent, modelled by the `Option`), and the record block is written at
the end. -/
def save_history (old : Option String) (ts : String) (data : List Snap) : String :=
  old.getD "" ++ record_text ts data

/-- The substring `"Total"` that selects data lines in `plot_usage`. -/
def totalPat : List Char := ['T', 'o', 't', 'a', 'l']

/-- The per-line body of the `plot_usage` read loop: `none` when the
line contributes nothing (no `"Total"`, fewer than three `|` fields, or
a failing `float(...)` conversion caught by the bare `except`), and the
`(drive_name, used_value, free_value)` triple it appends otherwise.
Field extraction follows the source exactly: the drive label is
`parts[0].split(':')[0].strip()`, and the two numbers come from
`parts[1]` and `parts[2]` via `.split(':')[1].strip().replace(' GB', '')`. -/
def parse_line (line : List Char) : Option (String × ℚ × ℚ) :=
  if containsSub totalPat line then
    let parts := splitOnChar '|' (pyStrip line)
    if 3 ≤ parts.length then
      let drive_name := pyStrip ((splitOnChar ':' (parts.getD 0 [])).getD 0 [])
      match (splitOnChar ':' (parts.getD 1 [])).get? 1,
            (splitOnChar ':' (parts.getD 2 [])).get? 1 with
      | some u, some f =>
        match pyFloat? (removeGB (pyStrip u)), pyFloat? (removeGB (pyStrip f)) with
        | some used_value, some free_value =>
          some (String.mk drive_name, used_value, free_value)
        | _, _ => none
      | _, _ => none
    else none
  else none

/-- The whole read loop of `plot_usage` over a list of lines. -/
def parse_lines (ls : List (List Char)) : List (String × ℚ × ℚ) :=
  ls.filterMap parse_line

/-- The read loop of `plot_usage` over full file text (`for line in f`
iterates the newline-separated lines). -/
def parse_history (text : String) : List (String × ℚ × ℚ) :=
  parse_lines (splitOnChar '\n' text.data)

example :
    parse_line ("C | Total: 465.66 GB | Used: 279.40 GB | Free: 186.26 GB").data
      = some ("C", mkRat 46566 100, mkRat 27940 100) := by decide
example :
    parse_line ("D | Total: 500.00 MB | Used: 300.00 MB | Free: 200.00 MB").data
      = none := by decide
example : parse_line ("Timestamp: 2024-01-01 00:00:00").data = none := by decide
example :
    parse_history (save_history none "2024-01-01 00:00:00"
        [("C", 500000000000, 300000000000, 200000000000)])
      = [("C", mkRat 46566 100, mkRat 27940 100)] := by decide

/-- Result of a `plot_usage` call: the early return when matplotlib is
missing, the early return when the history file does not exist, or the
parsed triples together with whether the chart is shown (`if disks:`). -/
inductive PlotOutcome where
  | missingMatplotlib (msg : String)
  | missingFile (msg : String)
  | parsed (rows : List (String × ℚ × ℚ)) (chartShown : Bool)
deriving DecidableEq

/-- Function `plot_usage`: guard on `HAS_MATPLOTLIB`, guard on
`os.path.exists(filename)` (the `Option` is `none` when the file does
not exist), then the parse loop and the `if disks:` chart rendering. -/
def plot_usage (hasMatplotlib : Bool) (file : Option String) : PlotOutcome :=
  if !hasMatplotlib then
    .missingMatplotlib
      "Error: matplotlib is not installed. Install with 'pip install matplotlib'."
  else
    match file with
    | none => .missingFile "No data to display."
    | some text =>
      let rows := parse_history text
      .parsed rows (!rows.isEmpty)

/-- The records a `plot_usage` call produced. -/
def plotRows : PlotOutcome → List (String × ℚ × ℚ)
  | .parsed rows _ => rows
  | _ => []

/-- Whether a `plot_usage` call rendered a chart. -/
def chartShown : PlotOutcome → Bool
  | .parsed _ c => c
  | _ => false

/-- Result of a psutil-guarded menu action: the printed unavailability
message and immediate return, or entry into the monitoring/listing body
(an interactive loop not modelled further). -/
inductive MonitorOutcome where
  | unavailableMsg (msg : String)
  | proceeds
deriving DecidableEq

/-- Function `monitor_memory`: the `if not psutil` guard. -/
def monitor_memory (hasPsutil : Bool) : MonitorOutcome :=
  if !hasPsutil then
    .unavailableMsg "psutil is not installed. Memory monitoring is unavailable."
  else .proceeds

/-- Function `monitor_cpu`: the `if not psutil` guard. -/
def monitor_cpu (hasPsutil : Bool) : MonitorOutcome :=
  if !hasPsutil then
    .unavailableMsg "psutil is not installed, CPU is unavailable."
  else .proceeds

/-- Function `list_processes`: the `if not psutil` guard. -/
def list_processes (hasPsutil : Bool) : MonitorOutcome :=
  if !hasPsutil then
    .unavailableMsg "psutil is not installed. Unable to get processes."
  else .proceeds

/-- State of the main menu loop: inside the `while True` (about to
render the menu again), or out of it after `break`. -/
inductive MenuState where
  | TopMenu
  | Exited
deriving DecidableEq

/-- The nine actions dispatched from the top menu. -/
inductive TopAction where
  | checkDisks
  | monitorMemory
  | monitorCpu
  | plotUsage
  | listProcesses
  | systemCommands
  | browseFiles
  | windowsOptimization
  | liveMonitoring
deriving DecidableEq

/-- The selection strings the top-menu `if`/`elif` chain recognizes. -/
def main_menu_choices : List String :=
  ["1", "2", "3", "4", "5", "6", "7", "8", "9", "10"]

/-- One iteration of the `main` loop after the selection has been read:
next state, whether the loop renders the menu again, the action run,
and the message printed by the branch itself.  Selections are compared
as strings, exactly as the source's `if choice == '1': ... elif ...`
chain does; `'10'` hits `break`, anything unrecognized prints the
invalid-choice message and loops. -/
def main_dispatch (choice : String) :
    MenuState × Bool × Option TopAction × Option String :=
  if choice = "1" then (.TopMenu, true, some .checkDisks, none)
  else if choice = "2" then (.TopMenu, true, some .monitorMemory, none)
  else if choice = "3" then (.TopMenu, true, some .monitorCpu, none)
  else if choice = "4" then (.TopMenu, true, some .plotUsage, none)
  else if choice = "5" then (.TopMenu, true, some .listProcesses, none)
  else if choice = "6" then (.TopMenu, true, some .systemCommands, none)
  else if choice = "7" then (.TopMenu, true, some .browseFiles, none)
  else if choice = "8" then (.TopMenu, true, some .windowsOptimization, none)
  else if choice = "9" then (.TopMenu, true, some .liveMonitoring, none)
  else if choice = "10" then (.Exited, false, none, some "Exiting...")
  else (.TopMenu, true, none, some "Invalid choice. Please try again.")

/-- The eight leaf maintenance operations of the optimization submenu. -/
inductive OptAction where
  | cleanTempFiles
  | clearUpdateCache
  | clearDnsCache
  | clearPrefetch
  | optimizeDisks
  | cleanRecycleBin
  | clearEventLogs
  | manageStartupPrograms
deriving DecidableEq

/-- One iteration of the `windows_optimization` submenu loop after the
selection has been read: leave the submenu (`'0'` hits `break`), run a
leaf action, run the composite, or print the invalid-choice message. -/
inductive SubmenuStep where
  | returnToMain
  | runAction (a : OptAction)
  | runAll
  | invalid
deriving DecidableEq

/-- The `if`/`elif` chain of `windows_optimization`. -/
def windows_optimization_dispatch (choice : String) : SubmenuStep :=
  if choice = "0" then .returnToMain
  else if choice = "1" then .runAction .cleanTempFiles
  else if choice = "2" then .runAction .clearUpdateCache
  else if choice = "3" then .runAction .clearDnsCache
  else if choice = "4" then .runAction .clearPrefetch
  else if choice = "5" then .runAction .optimizeDisks
  else if choice = "6" then .runAction .cleanRecycleBin
  else if choice = "7" then .runAction .clearEventLogs
  else if choice = "8" then .runAction .manageStartupPrograms
  else if choice = "9" then .runAll
  else .invalid

/-- The `optimizations` list literal of `run_all_optimizations`:
`(task_name, task_func)` pairs in declaration order. -/
def optimizations : List (String × OptAction) :=
  [("Cleaning temporary files", .cleanTempFiles),
   ("Clearing update cache", .clearUpdateCache),
   ("Clearing DNS cache", .clearDnsCache),
   ("Clearing prefetch", .clearPrefetch),
   ("Optimizing disks", .optimizeDisks),
   ("Cleaning Recycle Bin", .cleanRecycleBin),
   ("Clearing event logs", .clearEventLogs)]

/-- Function `run_all_optimizations`: each task of `optimizations` is invoked in
order inside `try ... except Exception as e`, so a raising task yields
the `Error during {task_name}: {e}` message and the loop moves on.  The
effect of one task run is abstracted as a `behavior` function returning
`.ok` (the task returned) or `.error e` (the task raised `e`).  The
result lists, per task in invocation order, the task name and the
caught error message, if any. -/
def run_all_optimizations (behavior : OptAction → Except String Unit) :
    List (String × Option String) :=
  optimizations.map fun p =>
    match behavior p.2 with
    | .ok _ => (p.1, none)
    | .error e => (p.1, some ("Error during " ++ p.1 ++ ": " ++ e))

/-- Text consisting of the given lines, each terminated by a newline. -/
def lines_text : List String → String
  | [] => ""
  | l :: ls => l ++ "\n" ++ lines_text ls

/-- A sample behavior of the optimization sub-actions: the third task
(clearing the DNS cache) raises, every other task returns normally. -/
def demoBehavior : OptAction → Except String Unit :=
  fun a => if a = OptAction.clearDnsCache then .error "boom" else .ok ()

theorem digitChar_isDigit {k : ℕ} (h : k < 10) : (Nat.digitChar k).isDigit := by
  interval_cases k <;> decide

theorem fmt2_shape (q : ℚ) :
    ∃ intStr d1 d2, fmt2 q = intStr ++ "." ++ String.mk [d1, d2]
      ∧ d1.isDigit ∧ d2.isDigit := by
  refine ⟨(if cents q < 0 then "-" else "") ++ toString ((cents q).natAbs / 100),
    Nat.digitChar ((cents q).natAbs / 10 % 10),
    Nat.digitChar ((cents q).natAbs % 10), rfl, ?_, ?_⟩
  · exact digitChar_isDigit (Nat.mod_lt _ (by norm_num))
  · exact digitChar_isDigit (Nat.mod_lt _ (by norm_num))

theorem one_le_mkRat (b : ℤ) (d : ℕ) (hd : 0 < d) (h : (d : ℤ) ≤ b) :
    1 ≤ mkRat b d := by
  rw [Rat.mkRat_eq_div, le_div_iff₀ (by exact_mod_cast hd), one_mul]
  exact_mod_cast h

theorem mkRat_lt_1024 (b : ℤ) (d : ℕ) (hd : 0 < d) (h : b < 1024 * d) :
    mkRat b d < 1024 := by
  rw [Rat.mkRat_eq_div, div_lt_iff₀ (by exact_mod_cast hd)]
  exact_mod_cast h

theorem lines_text_map_snapshot (d : List Snap) :
    lines_text (d.map snapshot_line) = snapshot_block d := by
  induction d with
  | nil => rfl
  | cons s rest ih => simp only [List.map_cons, lines_text, snapshot_block, ih]



/-- Claim C1 (refuted by the code; the writer is correct, the parser is
off by one field): appending the single snapshot
`("C", total=500e9, used=300e9, free=200e9)` writes the used and free
values as `"279.40 GB"` and `"186.26 GB"`, but parsing the file back
yields `("C", 465.66, 279.40)` — the Total and Used columns — because
the parser reads `parts[1]` and `parts[2]` of the `|` split, not
`parts[2]` and `parts[3]`.  The claimed tuple `("C", 279.40, 186.26)`
is not recovered, and the first component is off by far more than the
0.01 tolerance. -/
theorem C1_roundtrip_parses_total_and_used :
    format_size 300000000000 = "279.40 GB"
    ∧ format_size 200000000000 = "186.26 GB"
    ∧ parse_history (save_history none "2024-01-01 00:00:00"
        [("C", 500000000000, 300000000000, 200000000000)])
      = [("C", (46566 : ℚ) / 100, (27940 : ℚ) / 100)]
    ∧ parse_history (save_history none "2024-01-01 00:00:00"
        [("C", 500000000000, 300000000000, 200000000000)])
      ≠ [("C", (27940 : ℚ) / 100, (18626 : ℚ) / 100)] := by
  have h : parse_history (save_history none "2024-01-01 00:00:00"
      [("C", 500000000000, 300000000000, 200000000000)])
      = [("C", mkRat 46566 100, mkRat 27940 100)] := by decide
  have h1 : mkRat 46566 100 = (46566 : ℚ) / 100 := by
    rw [Rat.mkRat_eq_div]; norm_num
  have h2 : mkRat 27940 100 = (27940 : ℚ) / 100 := by
    rw [Rat.mkRat_eq_div]; norm_num
  refine ⟨by decide, by decide, by rw [h, h1, h2], ?_⟩
  rw [h, h1, h2]
  intro hc
  norm_num [List.cons.injEq, Prod.mk.injEq] at hc

/-- Claim C2 as stated is false: the separator line `save_history`
writes is not a line of exactly 40 dashes — the source interpolates
`Colors.MAGENTA` in front of the dashes
(`file.write(f"\n{Colors.MAGENTA}{'-' * 40}\n")`), so the ANSI escape
`"\x1b[95m"` is written into the file at the start of that line. -/
theorem C2_counterexample :
    record_text "2024-01-01 00:00:00" [("C", 500000000000, 300000000000, 200000000000)]
      ≠ lines_text ["", dashes40, "Timestamp: 2024-01-01 00:00:00",
          snapshot_line ("C", 500000000000, 300000000000, 200000000000)] := by
  decide

/-- Claim C2, amended: for every record, `save_history` opens the
destination for append (creating it if absent, modelled by the
`Option`) and writes exactly the record block consisting of one blank
line, a separator line that is the ANSI magenta escape `"\x1b[95m"`
followed by exactly 40 dashes, a `Timestamp: ...` line with the
record's timestamp, and one `<volume> | Total: <size> | Used: <size> |
Free: <size>` line per snapshot. -/
theorem C2_record_block (old : Option String) (ts : String) (data : List Snap) :
    save_history old ts data
      = old.getD ""
        ++ lines_text ("" :: (MAGENTA ++ dashes40) :: ("Timestamp: " ++ ts)
            :: data.map snapshot_line)
    ∧ dashes40.length = 40
    ∧ (∀ c ∈ dashes40.data, c = '-')
    ∧ MAGENTA = "\x1b[95m" := by
  refine ⟨?_, by decide, by decide, rfl⟩
  simp only [lines_text, lines_text_map_snapshot, save_history, record_text,
    String.empty_append, String.append_assoc]

/-- Claim C7: with the charting provider present but the history file
absent, `plot_usage` takes the `os.path.exists` early return: it
produces no records, renders no chart, raises no error, and only prints
the `No data to display.` notice. -/
theorem C7_nonexistent_file :
    plot_usage true none = .missingFile "No data to display."
    ∧ plotRows (plot_usage true none) = []
    ∧ chartShown (plot_usage true none) = false := by
  decide

/-- Claim C10: the `optimizations` list of `run_all_optimizations`
names exactly the seven sub-actions clean temp files, clear update
cache, clear DNS cache, clear prefetch, optimize disks, clean recycle
bin, clear event logs, in that order; the startup-programs management
action is not among them, even though it is item 8 of the optimization
submenu's dispatch. -/
theorem C10_run_all_excludes_startup :
    optimizations.map Prod.snd
      = [OptAction.cleanTempFiles, .clearUpdateCache, .clearDnsCache, .clearPrefetch,
         .optimizeDisks, .cleanRecycleBin, .clearEventLogs]
    ∧ OptAction.manageStartupPrograms ∉ optimizations.map Prod.snd
    ∧ windows_optimization_dispatch "8" = .runAction .manageStartupPrograms
    ∧ windows_optimization_dispatch "9" = .runAll := by
  decide

/-- Claim C3: in the `plot_usage` read loop, a line is treated as a
data line iff it contains the substring `"Total"` (without it the line
contributes nothing); a data line is used only if splitting it on `|`
yields at least three fields; and a data line whose numeric fields fail
to parse (for example values recorded in MB) is silently skipped —
parsing continues with the surrounding valid lines, as the skip law and
the concrete three-line file below show. -/
theorem C3_parse_skip_policy :
    (∀ line : List Char, containsSub totalPat line = false → parse_line line = none)
    ∧ (∀ line : List Char,
        (splitOnChar '|' (pyStrip line)).length < 3 → parse_line line = none)
    ∧ (∀ ls1 ls2 : List (List Char), ∀ bad : List Char, parse_line bad = none →
        parse_lines (ls1 ++ bad :: ls2) = parse_lines ls1 ++ parse_lines ls2)
    ∧ parse_line ("D | Total: 500.00 MB | Used: 300.00 MB | Free: 200.00 MB").data = none
    ∧ parse_lines
        [("C | Total: 465.66 GB | Used: 279.40 GB | Free: 186.26 GB").data,
         ("D | Total: 500.00 MB | Used: 300.00 MB | Free: 200.00 MB").data,
         ("E | Total: 10.00 GB | Used: 4.00 GB | Free: 6.00 GB").data]
      = [("C", mkRat 46566 100, mkRat 27940 100),
         ("E", mkRat 1000 100, mkRat 400 100)] := by
  refine ⟨?_, ?_, ?_, by decide, by decide⟩
  · intro line h
    simp [parse_line, h]
  · intro line h
    have h3 : ¬ (3 ≤ (splitOnChar '|' (pyStrip line)).length) := by omega
    by_cases hc : containsSub totalPat line <;> simp [parse_line, hc, h3]
  · intro ls1 ls2 bad h
    simp [parse_lines, List.filterMap_append, List.filterMap_cons, h]

/-- Witness for C3: the laws applied at concrete lines — a line without
`"Total"` is skipped, and a `"Total"` line with fewer than three `|`
fields is skipped. -/
theorem C3_witness :
    parse_line ("no usage data here").data = none
    ∧ parse_line ("Total").data = none :=
  ⟨C3_parse_skip_policy.1 ("no usage data here").data (by decide),
   C3_parse_skip_policy.2.1 ("Total").data (by decide)⟩

/-- Claim C5: in the main menu loop, the selection `"10"` hits `break`
(state `Exited`, the menu is not rendered again, only `Exiting...` is
printed), while any selection outside `"1"`..`"10"` prints the
invalid-choice message, stays at the top menu and re-renders it. -/
theorem C5_menu_dispatch :
    main_dispatch "10" = (.Exited, false, none, some "Exiting...")
    ∧ (∀ c : String, c ∉ main_menu_choices →
        main_dispatch c = (.TopMenu, true, none, some "Invalid choice. Please try again.")) := by
  refine ⟨by decide, ?_⟩
  intro c h
  simp only [main_menu_choices, List.mem_cons, List.mem_singleton, not_or] at h
  obtain ⟨h1, h2, h3, h4, h5, h6, h7, h8, h9, h10⟩ := h
  simp [main_dispatch, h1, h2, h3, h4, h5, h6, h7, h8, h9, h10]

/-- Witness for C5: the out-of-range selection `"0"` and the
non-numeric selection `"abc"` both leave the controller at the top
menu with the invalid-choice message. -/
theorem C5_witness :
    main_dispatch "0" = (.TopMenu, true, none, some "Invalid choice. Please try again.")
    ∧ main_dispatch "abc" = (.TopMenu, true, none, some "Invalid choice. Please try again.") :=
  ⟨C5_menu_dispatch.2 "0" (by decide), C5_menu_dispatch.2 "abc" (by decide)⟩

/-- Claim C8: with psutil absent, memory monitoring, CPU monitoring and
process listing each print their unavailability message and return
immediately; with matplotlib absent, `plot_usage` prints its install
hint and returns before touching the file, whatever the file state; and
the main loop treats each of these selections as an ordinary action
after which the menu is rendered again. -/
theorem C8_missing_dependency :
    monitor_memory false
      = .unavailableMsg "psutil is not installed. Memory monitoring is unavailable."
    ∧ monitor_cpu false = .unavailableMsg "psutil is not installed, CPU is unavailable."
    ∧ list_processes false = .unavailableMsg "psutil is not installed. Unable to get processes."
    ∧ (∀ file : Option String, plot_usage false file
        = .missingMatplotlib
            "Error: matplotlib is not installed. Install with 'pip install matplotlib'.")
    ∧ main_dispatch "2" = (.TopMenu, true, some .monitorMemory, none)
    ∧ main_dispatch "3" = (.TopMenu, true, some .monitorCpu, none)
    ∧ main_dispatch "4" = (.TopMenu, true, some .plotUsage, none)
    ∧ main_dispatch "5" = (.TopMenu, true, some .listProcesses, none) := by
  refine ⟨by decide, by decide, by decide, ?_, by decide, by decide, by decide, by decide⟩
  intro file
  rfl

/-- Witness for C8: the matplotlib guard applied to the two concrete
file states. -/
theorem C8_witness :
    plot_usage false none
      = .missingMatplotlib
          "Error: matplotlib is not installed. Install with 'pip install matplotlib'."
    ∧ plot_usage false (some "")
      = .missingMatplotlib
          "Error: matplotlib is not installed. Install with 'pip install matplotlib'." :=
  ⟨C8_missing_dependency.2.2.2.1 none, C8_missing_dependency.2.2.2.1 (some "")⟩

/-- Claim C9: `format_size` is total on negative inputs — every unit
threshold comparison is false, the `else` branch keeps the value
unconverted, and the result is the negative value rendered with two
decimals and the `Bytes` suffix. -/
theorem C9_negative_bytes (b : ℤ) (hb : b < 0) :
    format_size_parts b = (mkRat b 1, "Bytes")
    ∧ format_size b = fmt2 (mkRat b 1) ++ " " ++ "Bytes" := by
  have h1 : ¬ ((1073741824 : ℤ) ≤ b) := by omega
  have h2 : ¬ ((1048576 : ℤ) ≤ b) := by omega
  have h3 : ¬ ((1024 : ℤ) ≤ b) := by omega
  have hp : format_size_parts b = (mkRat b 1, "Bytes") := by
    simp [format_size_parts, h1, h2, h3]
  exact ⟨hp, by simp only [format_size, hp]⟩

/-- Witness for C9: `format_size (-5)` falls through to the Bytes branch
and renders `"-5.00 Bytes"`. -/
theorem C9_witness :
    format_size_parts (-5) = (mkRat (-5) 1, "Bytes")
    ∧ format_size (-5) = "-5.00 Bytes" :=
  ⟨(C9_negative_bytes (-5) (by decide)).1, by decide⟩

/-- Claim C4 as stated is false at `b = 1024 ^ 4`: the selected unit is
GB, yet the rendered magnitude `b / 2^30 = 1024` is not below 1024 —
GB is the last conversion branch and has no upper bound. -/
theorem C4_counterexample :
    (format_size_parts (1024 ^ 4)).2 = "GB"
    ∧ ¬ (format_size_parts (1024 ^ 4)).1 < 1024
    ∧ format_size (1024 ^ 4) = "1024.00 GB" := by
  decide

/-- Claim C4, amended: for every non-negative integer `b`,
`format_size` selects Bytes exactly when `b < 1024`, and otherwise the
first unit of GB, MB, KB whose scale `b` reaches, so the magnitude is
at least 1; for MB and KB it is also below 1024, while for GB — the
largest unit — there is no upper bound.  The result is the magnitude
rendered with exactly two decimal digits, a space, and the unit
suffix. -/
theorem C4_unit_selection (b : ℤ) (hb : 0 ≤ b) :
    ((format_size_parts b).2 = "Bytes" ↔ b < 1024)
    ∧ ((format_size_parts b).2 = "GB" → 1 ≤ (format_size_parts b).1)
    ∧ ((format_size_parts b).2 = "MB" →
        1 ≤ (format_size_parts b).1 ∧ (format_size_parts b).1 < 1024)
    ∧ ((format_size_parts b).2 = "KB" →
        1 ≤ (format_size_parts b).1 ∧ (format_size_parts b).1 < 1024)
    ∧ format_size b = fmt2 (format_size_parts b).1 ++ " " ++ (format_size_parts b).2
    ∧ (∃ intStr d1 d2,
        fmt2 (format_size_parts b).1 = intStr ++ "." ++ String.mk [d1, d2]
        ∧ d1.isDigit ∧ d2.isDigit) := by
  by_cases hg : (1073741824 : ℤ) ≤ b
  · have hp : format_size_parts b = (mkRat b (1024 ^ 3), "GB") := by
      simp [format_size_parts, hg]
    refine ⟨?_, ?_, ?_, ?_, rfl, fmt2_shape _⟩
    · rw [hp]
      exact iff_of_false (by simp) (by omega)
    · rw [hp]
      intro _
      exact one_le_mkRat b (1024 ^ 3) (by norm_num) (by push_cast; omega)
    · rw [hp]
      intro hcon
      exact absurd hcon (by simp)
    · rw [hp]
      intro hcon
      exact absurd hcon (by simp)
  · by_cases hm : (1048576 : ℤ) ≤ b
    · have hp : format_size_parts b = (mkRat b (1024 ^ 2), "MB") := by
        simp [format_size_parts, hg, hm]
      refine ⟨?_, ?_, ?_, ?_, rfl, fmt2_shape _⟩
      · rw [hp]
        exact iff_of_false (by simp) (by omega)
      · rw [hp]
        intro hcon
        exact absurd hcon (by simp)
      · rw [hp]
        intro _
        refine ⟨one_le_mkRat b (1024 ^ 2) (by norm_num) (by push_cast; omega), ?_⟩
        exact mkRat_lt_1024 b (1024 ^ 2) (by norm_num) (by push_cast; omega)
      · rw [hp]
        intro hcon
        exact absurd hcon (by simp)
    · by_cases hk : (1024 : ℤ) ≤ b
      · have hp : format_size_parts b = (mkRat b 1024, "KB") := by
          simp [format_size_parts, hg, hm, hk]
        refine ⟨?_, ?_, ?_, ?_, rfl, fmt2_shape _⟩
        · rw [hp]
          exact iff_of_false (by simp) (by omega)
        · rw [hp]
          intro hcon
          exact absurd hcon (by simp)
        · rw [hp]
          intro hcon
          exact absurd hcon (by simp)
        · rw [hp]
          intro _
          refine ⟨one_le_mkRat b 1024 (by norm_num) (by push_cast; omega), ?_⟩
          exact mkRat_lt_1024 b 1024 (by norm_num) (by push_cast; omega)
      · have hp : format_size_parts b = (mkRat b 1, "Bytes") := by
          simp [format_size_parts, hg, hm, hk]
        refine ⟨?_, ?_, ?_, ?_, rfl, fmt2_shape _⟩
        · rw [hp]
          exact iff_of_true rfl (by omega)
        · rw [hp]
          intro hcon
          exact absurd hcon (by simp)
        · rw [hp]
          intro hcon
          exact absurd hcon (by simp)
        · rw [hp]
          intro hcon
          exact absurd hcon (by simp)

/-- Witness for C4: at `b = 1536` the selected unit is KB with
magnitude `1.50`, inside the `[1, 1024)` window, rendered
`"1.50 KB"`. -/
theorem C4_witness :
    (format_size_parts 1536).2 = "KB"
    ∧ 1 ≤ (format_size_parts 1536).1
    ∧ (format_size_parts 1536).1 < 1024
    ∧ format_size 1536 = "1.50 KB" := by
  have h := C4_unit_selection 1536 (by decide)
  have hk := h.2.2.2.1 (by decide)
  exact ⟨by decide, hk.1, hk.2, by decide⟩

/-- Claim C6: `run_all_optimizations` invokes its seven sub-actions in
the declared order whatever each one does; when the third of the seven
(clearing the DNS cache) raises and the other six return normally, all
seven task entries are still produced in order — so actions 4 through 7
ran — and the per-action report shows 6 successes and 1 failure, the
failure carrying the caught `Error during ...` message; the loop never
aborts. -/
theorem C6_run_all_resilient (behavior : OptAction → Except String Unit) (e : String)
    (hfail : behavior .clearDnsCache = .error e)
    (hok : ∀ a : OptAction, a ≠ .clearDnsCache → behavior a = .ok ()) :
    (run_all_optimizations behavior).map Prod.fst = optimizations.map Prod.fst
    ∧ (run_all_optimizations behavior).length = 7
    ∧ ((run_all_optimizations behavior).filter (fun p => p.2.isNone)).length = 6
    ∧ ((run_all_optimizations behavior).filter (fun p => p.2.isSome)).length = 1
    ∧ (run_all_optimizations behavior).getD 2 ("", none)
      = ("Clearing DNS cache", some ("Error during Clearing DNS cache: " ++ e)) := by
  have h1 := hok .cleanTempFiles (by simp)
  have h2 := hok .clearUpdateCache (by simp)
  have h4 := hok .clearPrefetch (by simp)
  have h5 := hok .optimizeDisks (by simp)
  have h6 := hok .cleanRecycleBin (by simp)
  have h7 := hok .clearEventLogs (by simp)
  simp [run_all_optimizations, optimizations, h1, h2, hfail, h4, h5, h6, h7,
    List.getD]

/-- Witness for C6: the sample behavior where exactly the DNS-cache
task raises — all seven entries are reported, 6 successes and 1
failure. -/
theorem C6_witness :
    (run_all_optimizations demoBehavior).map Prod.fst = optimizations.map Prod.fst
    ∧ (run_all_optimizations demoBehavior).length = 7
    ∧ ((run_all_optimizations demoBehavior).filter (fun p => p.2.isNone)).length = 6
    ∧ ((run_all_optimizations demoBehavior).filter (fun p => p.2.isSome)).length = 1 := by
  have h := C6_run_all_resilient demoBehavior "boom" rfl
    (fun a ha => by simp [demoBehavior, ha])
  exact ⟨h.1, h.2.1, h.2.2.1, h.2.2.2.1⟩
